import Mathlib

/-!
Cuda templates: storage life cycle of device memory.

A shallow embedding of `storage.hpp` (classes `Storage`, `Pointer`, `PointerStorage`) and
`devicememory.hpp` (classes `DeviceMemory`, `DeviceMemory::KernelData`, `DeviceMemoryStorage`).

* The classes are combined by virtual inheritance, so a complete object holds exactly one
  `Layout` sub-object and one `Pointer::buffer` member.  The record `Pointer` below is that state.
* Addresses are natural numbers, the null pointer is `0`.
* The accelerator runtime (`cudaFree`, `cudaMemset`, `cudaThreadSynchronize`, and the allocator
  used by a backend `alloc()`) is an external collaborator.  Each call is appended to a trace and
  the status it returns is chosen by an arbitrary `Runtime`, which may depend on the calls made
  so far.
* A C++ exception leaves the object as it was at the throw.  A member function is therefore a
  function from the machine (object and trace) to an outcome and the machine after the call.
-/

namespace Cuda

/-! ## Runtime, trace and outcomes -/

/-- Status code `cudaSuccess` of the accelerator runtime. -/
def cudaSuccess : Nat := 0

/-- Width in bits of the type `size_t` (64-bit host). -/
def SIZE_BITS : Nat := 64

/-- Product of two `size_t` operands, reduced to the width of `size_t`. -/
def sizeMul (a b : Nat) : Nat := (a * b) % 2 ^ SIZE_BITS

/-- Calls issued to the accelerator runtime, in the order of the trace. -/
inductive Call where
  | cudaFree (devPtr : Nat)
  | cudaMemset (devPtr : Nat) (value : Int) (count : Nat)
  | cudaThreadSynchronize
  | cudaMalloc (bytes : Nat)
  deriving DecidableEq, Repr

/-- The accelerator runtime: the status code (and for the allocator the address) answered to a
call, given the calls issued before it.  The status of `cudaThreadSynchronize` is discarded by
the caller and has no field. -/
structure Runtime where
  cudaFree : List Call → Nat → Nat
  cudaMemset : List Call → Nat → Int → Nat → Nat
  cudaMalloc : List Call → Nat → Nat × Nat

/-- How a member function ends: it returns, or an exception carrying the runtime status
propagates to the caller. -/
inductive Outcome where
  | ok
  | thrown (status : Nat)
  deriving DecidableEq, Repr

/-- Modelled from the spec: the error-check wrapper `CUDA_CHECK` of the missing `error.hpp`
(section 9: a check wrapped around every backend call that converts a backend status code into
an error surfaced to the caller).  A status other than `cudaSuccess` is raised. -/
def CUDA_CHECK (status : Nat) : Outcome :=
  if status = cudaSuccess then Outcome.ok else Outcome.thrown status

/-! ## Data model -/

/-- Modelled from the spec: class `Layout<Type, Dim>`, declared in the missing `layout.hpp`:
`Dim` extents and `Dim` strides (section 3).  These are the public arrays `size` and `stride`
that `KernelData` reads element by element. -/
structure Layout (Dim : Nat) where
  size : Fin Dim → Nat
  stride : Fin Dim → Nat

/-- Class `Pointer<Type, Dim>`: the virtual base `Layout` and the member `buffer`.  The classes
`Storage`, `PointerStorage`, `DeviceMemory` and `DeviceMemoryStorage` add no data member, so this
is also the state of a complete `DeviceMemoryStorage` object. -/
structure Pointer (Dim : Nat) extends Layout Dim where
  buffer : Nat

/-- The machine a member function runs on: the object and the trace of runtime calls. -/
structure Machine (Dim : Nat) where
  obj : Pointer Dim
  trace : List Call

/-- A member function without result value. -/
abbrev Step (Dim : Nat) := Machine Dim → Outcome × Machine Dim

/-- Statement sequencing `a; b`: when `a` throws, `b` is not executed. -/
def Step.seq {Dim : Nat} (a b : Step Dim) : Step Dim := fun m =>
  match a m with
  | (Outcome.ok, m1) => b m1
  | (Outcome.thrown e, m1) => (Outcome.thrown e, m1)

/-- A call of a `Layout` member function that mutates the shape only. -/
def Step.onLayout {Dim : Nat} (f : Layout Dim → Layout Dim) : Step Dim := fun m =>
  (Outcome.ok, { m with obj := { m.obj with toLayout := f m.obj.toLayout } })

/-- Modelled from the spec: `Layout::getSize()` of the missing `layout.hpp`, the total element
count, which is the product of the extents (section 3). -/
def Layout.getSize {Dim : Nat} (l : Layout Dim) : Nat :=
  (List.ofFn l.size).prod

/-- Modelled from the spec: `Layout::setLayout(other)` of the missing `layout.hpp`; it replaces
the shape description by that of `other` and touches no buffer (section 4.1). -/
def Layout.setLayout {Dim : Nat} (other : Layout Dim) (_l : Layout Dim) : Layout Dim :=
  { size := other.size, stride := other.stride }

/-- Modelled from the spec: the copy constructor of `Layout` (missing `layout.hpp`); a layout
is value-copyable (section 3), the copy has the same extents and strides. -/
def Layout.copy {Dim : Nat} (x : Layout Dim) : Layout Dim :=
  { size := x.size, stride := x.stride }

/-- Accessor `Pointer::getBuffer()`. -/
def Pointer.getBuffer {Dim : Nat} (p : Pointer Dim) : Nat := p.buffer

/-! ## `storage.hpp` -/

/-! ### Constructors

`Storage`, `PointerStorage` and `DeviceMemoryStorage` leave `alloc()` pure, the constructors of
`DeviceMemory` and the copy constructor of `Pointer` are protected: for an owning object none of
these classes is the most derived one.  A mem-initialiser that names a virtual base is executed
only by the constructor of the most derived class, so the initialisers `Layout<Type, Dim>(...)`
and `Pointer<Type, Dim>(...)` in the constructors below do not run.  Each constructor is
therefore a function on the object under construction `self`, whose virtual base `Layout` the
most derived class has initialised before. -/

/-- Constructor `Storage::Storage()`: empty. -/
def Storage.ctor {Dim : Nat} (self : Pointer Dim) : Pointer Dim := self

/-- Constructor `Storage::Storage(const Size &_size)`: the initialiser `Layout(_size)` names a
virtual base and does not run; empty body. -/
def Storage.ctorSize {Dim : Nat} (_size : Fin Dim → Nat) (self : Pointer Dim) : Pointer Dim := self

/-- Constructor `Storage::Storage(const Layout &layout)`: the initialiser `Layout(layout)` names
a virtual base and does not run; empty body. -/
def Storage.ctorLayout {Dim : Nat} (_layout : Layout Dim) (self : Pointer Dim) : Pointer Dim :=
  self

/-- Copy constructor `Storage::Storage(const Storage &s)`: the initialiser `Layout(s)` names a
virtual base and does not run; empty body. -/
def Storage.ctorCopy {Dim : Nat} (_s : Pointer Dim) (self : Pointer Dim) : Pointer Dim := self

/-- Constructor `Pointer::Pointer()`: `buffer(0)`. -/
def Pointer.ctor {Dim : Nat} (self : Pointer Dim) : Pointer Dim :=
  { self with buffer := 0 }

/-- Constructor `Pointer::Pointer(const Size &_size)`: `buffer(0)`; the initialiser
`Layout(_size)` names a virtual base and does not run. -/
def Pointer.ctorSize {Dim : Nat} (_size : Fin Dim → Nat) (self : Pointer Dim) : Pointer Dim :=
  { self with buffer := 0 }

/-- Constructor `Pointer::Pointer(const Layout &layout)`: `buffer(0)`; the initialiser
`Layout(layout)` names a virtual base and does not run. -/
def Pointer.ctorLayout {Dim : Nat} (_layout : Layout Dim) (self : Pointer Dim) : Pointer Dim :=
  { self with buffer := 0 }

/-- Copy constructor `Pointer::Pointer(const Pointer &x)`: `buffer(0)`; the initialiser
`Layout(x)` names a virtual base and does not run; `x` is only read. -/
def Pointer.ctorCopy {Dim : Nat} (_x : Pointer Dim) (self : Pointer Dim) : Pointer Dim :=
  { self with buffer := 0 }

/-- Constructor `PointerStorage::PointerStorage()`: the base `Storage()`, empty body. -/
def PointerStorage.ctor {Dim : Nat} (self : Pointer Dim) : Pointer Dim :=
  Storage.ctor self

/-- Constructor `PointerStorage::PointerStorage(const Size &_size)`: the initialisers
`Layout(_size)` and `Pointer(_size)` name virtual bases and do not run; `Storage(_size)`, empty
body. -/
def PointerStorage.ctorSize {Dim : Nat} (_size : Fin Dim → Nat) (self : Pointer Dim) :
    Pointer Dim :=
  Storage.ctorSize _size self

/-- Constructor `PointerStorage::PointerStorage(const Layout &layout)`: the initialisers
`Layout(layout)` and `Pointer(layout)` name virtual bases and do not run; `Storage(layout)`,
empty body. -/
def PointerStorage.ctorLayout {Dim : Nat} (layout : Layout Dim) (self : Pointer Dim) :
    Pointer Dim :=
  Storage.ctorLayout layout self

/-- Copy constructor `PointerStorage::PointerStorage(const PointerStorage &x)`: the initialisers
`Layout(x)` and `Pointer(x)` name virtual bases and do not run; `Storage(x)`, empty body. -/
def PointerStorage.ctorCopy {Dim : Nat} (x : Pointer Dim) (self : Pointer Dim) : Pointer Dim :=
  Storage.ctorCopy x self

/-- Member `PointerStorage::init()`: `this->buffer = 0`. -/
def PointerStorage.init {Dim : Nat} : Step Dim := fun m =>
  (Outcome.ok, { m with obj := { m.obj with buffer := 0 } })

/-- Member `Storage::alloc(const Size &_size)`: `free(); this->setSize(_size); alloc();`.  The virtual
functions `free` and `alloc` and the `Layout` member `setSize` (missing `layout.hpp`) are
arguments. -/
def Storage.allocSize {Dim : Nat} (free alloc : Step Dim)
    (setSize : (Fin Dim → Nat) → Layout Dim → Layout Dim) (_size : Fin Dim → Nat) : Step Dim :=
  Step.seq free (Step.seq (Step.onLayout (setSize _size)) alloc)

/-- Member `Storage::alloc(const Layout &layout)`: `free(); this->setLayout(layout); alloc();`. -/
def Storage.allocLayout {Dim : Nat} (free alloc : Step Dim)
    (setLayout : Layout Dim → Layout Dim → Layout Dim) (layout : Layout Dim) : Step Dim :=
  Step.seq free (Step.seq (Step.onLayout (setLayout layout)) alloc)

/-! ## `devicememory.hpp` -/

/-- Constructor `DeviceMemory::DeviceMemory()`: empty. -/
def DeviceMemory.ctor {Dim : Nat} (self : Pointer Dim) : Pointer Dim := self

/-- Constructor `DeviceMemory::DeviceMemory(const Size &_size)`: the initialisers
`Layout(_size)` and `Pointer(_size)` name virtual bases and do not run; empty body. -/
def DeviceMemory.ctorSize {Dim : Nat} (_size : Fin Dim → Nat) (self : Pointer Dim) :
    Pointer Dim := self

/-- Constructor `DeviceMemory::DeviceMemory(const Layout &layout)`: the initialisers
`Layout(layout)` and `Pointer(layout)` name virtual bases and do not run; empty body. -/
def DeviceMemory.ctorLayout {Dim : Nat} (_layout : Layout Dim) (self : Pointer Dim) :
    Pointer Dim := self

/-- Copy constructor `DeviceMemory::DeviceMemory(const DeviceMemory &x)`: the initialisers
`Layout(x)` and `Pointer(x)` name virtual bases and do not run; empty body. -/
def DeviceMemory.ctorCopy {Dim : Nat} (_x : Pointer Dim) (self : Pointer Dim) : Pointer Dim :=
  self

/-- Member `DeviceMemory::initMem(int val, bool sync)`. -/
def DeviceMemory.initMem {Dim : Nat} (rt : Runtime) (sizeofType : Nat) (val : Int) (sync : Bool) :
    Step Dim := fun m =>
  if m.obj.buffer = 0 then (Outcome.ok, m)
  else
    let count := sizeMul m.obj.toLayout.getSize sizeofType
    let m1 : Machine Dim := { m with trace := m.trace ++ [Call.cudaMemset m.obj.buffer val count] }
    match CUDA_CHECK (rt.cudaMemset m.trace m.obj.buffer val count) with
    | Outcome.thrown e => (Outcome.thrown e, m1)
    | Outcome.ok =>
      if sync then (Outcome.ok, { m1 with trace := m1.trace ++ [Call.cudaThreadSynchronize] })
      else (Outcome.ok, m1)

/-- Constructor `DeviceMemoryStorage::DeviceMemoryStorage()`: the bases `DeviceMemory()` and
`PointerStorage()`, in this order, empty body. -/
def DeviceMemoryStorage.ctor {Dim : Nat} (self : Pointer Dim) : Pointer Dim :=
  PointerStorage.ctor (DeviceMemory.ctor self)

/-- Constructor `DeviceMemoryStorage::DeviceMemoryStorage(const Size &_size)`: the initialisers
`Layout(_size)` and `Pointer(_size)` name virtual bases and do not run; `DeviceMemory(_size)`,
`PointerStorage(_size)`, empty body. -/
def DeviceMemoryStorage.ctorSize {Dim : Nat} (_size : Fin Dim → Nat) (self : Pointer Dim) :
    Pointer Dim :=
  PointerStorage.ctorSize _size (DeviceMemory.ctorSize _size self)

/-- Constructor `DeviceMemoryStorage::DeviceMemoryStorage(const Layout &layout)`: the
initialisers `Layout(layout)` and `Pointer(layout)` name virtual bases and do not run;
`DeviceMemory(layout)`, `PointerStorage(layout)`, empty body. -/
def DeviceMemoryStorage.ctorLayout {Dim : Nat} (layout : Layout Dim) (self : Pointer Dim) :
    Pointer Dim :=
  PointerStorage.ctorLayout layout (DeviceMemory.ctorLayout layout self)

/-- Copy constructor `DeviceMemoryStorage::DeviceMemoryStorage(const DeviceMemoryStorage &x)`:
the initialisers `Layout(x)` and `Pointer(x)` name virtual bases and do not run;
`DeviceMemory(x)`, `PointerStorage(x)`, empty body. -/
def DeviceMemoryStorage.ctorCopy {Dim : Nat} (x : Pointer Dim) (self : Pointer Dim) :
    Pointer Dim :=
  PointerStorage.ctorCopy x (DeviceMemory.ctorCopy x self)

/-- Construction of a complete owning object up to the body of the constructor of its most
derived class (a concrete buffer class, not among the sources).  In the order the language
fixes: the virtual base `Layout` is initialised by the most derived class, to `vl`; the virtual
base `Pointer` is constructed by the `Pointer` constructor that class names; then its direct
base `DeviceMemoryStorage` is constructed.  The storage is indeterminate before: `junk` is the
prior content of `buffer`. -/
def MostDerived.construct {Dim : Nat} (vl : Layout Dim) (junk : Nat)
    (pointerCtor storageCtor : Pointer Dim → Pointer Dim) : Pointer Dim :=
  storageCtor (pointerCtor { toLayout := vl, buffer := junk })

/-- The result of a copy construction: the source object after the call and the new object. -/
structure Copied (Dim : Nat) where
  source : Pointer Dim
  object : Pointer Dim

/-- Modelled from the spec: the initialisation performed by the copy constructor of the most
derived class of an owning object (a concrete buffer class such as the `DeviceMemoryLinear` the
tests use; its header is not among the sources), up to its body.  Section 4.6: the copy
constructor produces a bufferless object with the same Layout; so the class initialises its
virtual bases with `Layout(x)` and `Pointer(x)` and its direct base with
`DeviceMemoryStorage(x)`, the initialisers every copy constructor of the two headers names.  The
source `x` is a const reference and is only read. -/
def MostDerived.ctorCopy {Dim : Nat} (x : Pointer Dim) (junk : Nat) : Copied Dim :=
  { source := x,
    object := MostDerived.construct (Layout.copy x.toLayout) junk (Pointer.ctorCopy x)
      (DeviceMemoryStorage.ctorCopy x) }

/-- Member `DeviceMemoryStorage::init()`: `this->buffer = 0`. -/
def DeviceMemoryStorage.init {Dim : Nat} : Step Dim := fun m =>
  (Outcome.ok, { m with obj := { m.obj with buffer := 0 } })

/-- Member `DeviceMemoryStorage::free()`. -/
def DeviceMemoryStorage.free {Dim : Nat} (rt : Runtime) : Step Dim := fun m =>
  if m.obj.buffer = 0 then (Outcome.ok, m)
  else
    let m1 : Machine Dim := { m with trace := m.trace ++ [Call.cudaFree m.obj.buffer] }
    match CUDA_CHECK (rt.cudaFree m.trace m.obj.buffer) with
    | Outcome.thrown e => (Outcome.thrown e, m1)
    | Outcome.ok => (Outcome.ok, { m1 with obj := { m1.obj with buffer := 0 } })

/-- Destructor `DeviceMemoryStorage::~DeviceMemoryStorage()`: `this->free();`. -/
def DeviceMemoryStorage.dtor {Dim : Nat} (rt : Runtime) : Step Dim :=
  DeviceMemoryStorage.free rt

/-- Modelled from the spec: the backend `alloc()` of an owning accelerator buffer (section 4.6;
the class that defines it is not among the sources).  It requests
`totalElementCount * elementSize` bytes from the accelerator allocator and stores the resulting
address; an allocator error is raised and no address is stored. -/
def DeviceMemoryLinear.alloc {Dim : Nat} (rt : Runtime) (sizeofType : Nat) : Step Dim := fun m =>
  let bytes := sizeMul m.obj.toLayout.getSize sizeofType
  let m1 : Machine Dim := { m with trace := m.trace ++ [Call.cudaMalloc bytes] }
  match CUDA_CHECK (rt.cudaMalloc m.trace bytes).1 with
  | Outcome.thrown e => (Outcome.thrown e, m1)
  | Outcome.ok => (Outcome.ok, { m1 with obj := { m1.obj with buffer := (rt.cudaMalloc m.trace bytes).2 } })

/-! ## `DeviceMemory::KernelData` -/

/-- Width in bits of the types `int` and `unsigned`. -/
def INT_BITS : Nat := 32

/-- The conversion `int i = Dim` of the `unsigned` template argument `Dim`: values above
`INT_MAX` wrap to negative numbers. -/
def intOfUnsigned (u : Nat) : Int :=
  if u % 2 ^ INT_BITS < 2 ^ (INT_BITS - 1) then ((u % 2 ^ INT_BITS : Nat) : Int)
  else ((u % 2 ^ INT_BITS : Nat) : Int) - ((2 ^ INT_BITS : Nat) : Int)

/-- Struct `DeviceMemory::KernelData`: `Type *data; size_t size[Dim]; size_t stride[Dim];`. -/
structure DeviceMemory.KernelData (Dim : Nat) where
  data : Nat
  size : Fin Dim → Nat
  stride : Fin Dim → Nat

/-- Constructor `KernelData::KernelData()`: `data(0)`; the arrays are not initialised, their indeterminate
contents are the arguments. -/
def DeviceMemory.KernelData.ctor {Dim : Nat} (junkSize junkStride : Fin Dim → Nat) :
    DeviceMemory.KernelData Dim :=
  { data := 0, size := junkSize, stride := junkStride }

/-- The loop `for(int i = Dim; i--;) { size[i] = mem.size[i]; stride[i] = mem.stride[i]; }`
entered with a counter `i >= 0`.  The test `i--` ends the loop at `0`; otherwise the body runs
with the decremented counter.  An index outside the arrays has no defined behaviour (`none`).
The list collects the indices the body ran for, in order. -/
def DeviceMemory.KernelData.copyLoop {Dim : Nat} (mem : Pointer Dim) :
    Nat → DeviceMemory.KernelData Dim → List Nat → Option (DeviceMemory.KernelData Dim × List Nat)
  | 0, kd, visited => some (kd, visited)
  | i + 1, kd, visited =>
    if h : i < Dim then
      DeviceMemory.KernelData.copyLoop mem i
        { kd with size := Function.update kd.size ⟨i, h⟩ (mem.size ⟨i, h⟩),
                  stride := Function.update kd.stride ⟨i, h⟩ (mem.stride ⟨i, h⟩) }
        (visited ++ [i])
    else none

/-- The result of constructing a kernel view: the argument object after the call, the
descriptor, and the indices the copy loop visited. -/
structure DeviceMemory.KernelView (Dim : Nat) where
  mem : Pointer Dim
  kernelData : DeviceMemory.KernelData Dim
  visited : List Nat

/-- Constructor `KernelData::KernelData(const DeviceMemory &mem)`: `data(mem.getBuffer())`, then the copy
loop over the arrays, which start with indeterminate contents.  A negative counter passes the
test `i--` and indexes the arrays below zero, which has no defined behaviour (`none`). -/
def DeviceMemory.KernelData.ctorMem {Dim : Nat} (mem : Pointer Dim)
    (junkSize junkStride : Fin Dim → Nat) : Option (DeviceMemory.KernelView Dim) :=
  match intOfUnsigned Dim with
  | Int.ofNat n =>
    match DeviceMemory.KernelData.copyLoop mem n
        { data := mem.getBuffer, size := junkSize, stride := junkStride } [] with
    | some (kd, visited) => some { mem := mem, kernelData := kd, visited := visited }
    | none => none
  | Int.negSucc _ => none


/-! ## Sample objects used to instantiate the theorems -/

/-- A one-dimensional layout with the given extent and stride `1`. -/
def Sample.layout (n : Nat) : Layout 1 :=
  { size := fun _ => n, stride := fun _ => 1 }

/-- A machine holding a one-dimensional object of extent `n` at address `p`, with no call
issued so far. -/
def Sample.machine (n p : Nat) : Machine 1 :=
  { obj := { toLayout := Sample.layout n, buffer := p }, trace := [] }

/-- A runtime in which every call succeeds; the allocator answers address `4096`. -/
def Sample.rtOk : Runtime :=
  { cudaFree := fun _ _ => cudaSuccess,
    cudaMemset := fun _ _ _ _ => cudaSuccess,
    cudaMalloc := fun _ _ => (cudaSuccess, 4096) }

/-- A runtime whose deallocator and fill report status `1` and whose allocator reports status
`2` (out of memory). -/
def Sample.rtFail : Runtime :=
  { cudaFree := fun _ _ => 1,
    cudaMemset := fun _ _ _ _ => 1,
    cudaMalloc := fun _ _ => (2, 0) }

/-- A runtime whose deallocator succeeds and whose allocator reports status `2`. -/
def Sample.rtNoMem : Runtime :=
  { cudaFree := fun _ _ => cudaSuccess,
    cudaMemset := fun _ _ _ _ => cudaSuccess,
    cudaMalloc := fun _ _ => (2, 0) }

/-- A `setSize` for one-dimensional layouts: the extent is replaced, the stride stays `1`. -/
def Sample.setSize (size : Fin 1 → Nat) (_l : Layout 1) : Layout 1 :=
  { size := size, stride := fun _ => 1 }

/-- A two-dimensional object of extents `(3, 5)` and strides `(1, 3)` at address `7`. -/
def Sample.object2 : Pointer 2 :=
  { size := fun i => if i = 0 then 3 else 5,
    stride := fun i => if i = 0 then 1 else 3,
    buffer := 7 }

/-! ## Basic facts about `free()` -/

theorem CUDA_CHECK_success : CUDA_CHECK cudaSuccess = Outcome.ok := by
  simp [CUDA_CHECK]

theorem CUDA_CHECK_failure {status : Nat} (h : status ≠ cudaSuccess) :
    CUDA_CHECK status = Outcome.thrown status := by
  simp [CUDA_CHECK, h]

theorem free_of_null {Dim : Nat} (rt : Runtime) (m : Machine Dim) (h : m.obj.buffer = 0) :
    DeviceMemoryStorage.free rt m = (Outcome.ok, m) := by
  simp [DeviceMemoryStorage.free, h]

theorem free_of_success {Dim : Nat} (rt : Runtime) (m : Machine Dim) (h : m.obj.buffer ≠ 0)
    (hs : rt.cudaFree m.trace m.obj.buffer = cudaSuccess) :
    DeviceMemoryStorage.free rt m =
      (Outcome.ok, { obj := { m.obj with buffer := 0 },
                     trace := m.trace ++ [Call.cudaFree m.obj.buffer] }) := by
  simp [DeviceMemoryStorage.free, h, hs, CUDA_CHECK]

theorem free_of_failure {Dim : Nat} (rt : Runtime) (m : Machine Dim) (h : m.obj.buffer ≠ 0)
    (hs : rt.cudaFree m.trace m.obj.buffer ≠ cudaSuccess) :
    DeviceMemoryStorage.free rt m =
      (Outcome.thrown (rt.cudaFree m.trace m.obj.buffer),
        { m with trace := m.trace ++ [Call.cudaFree m.obj.buffer] }) := by
  simp [DeviceMemoryStorage.free, h, hs, CUDA_CHECK]

theorem free_ok_buffer {Dim : Nat} (rt : Runtime) (m : Machine Dim)
    (h : (DeviceMemoryStorage.free rt m).1 = Outcome.ok) :
    (DeviceMemoryStorage.free rt m).2.obj.buffer = 0 := by
  by_cases hb : m.obj.buffer = 0
  · rw [free_of_null rt m hb]; exact hb
  · by_cases hs : rt.cudaFree m.trace m.obj.buffer = cudaSuccess
    · rw [free_of_success rt m hb hs]
    · rw [free_of_failure rt m hb hs] at h
      cases h

/-- C1: whenever `DeviceMemoryStorage::free()` completes (returns without raising, that is the
deallocator reported no error or there was nothing to release), `getBuffer()` is null afterwards,
for every layout, every buffer state and every runtime; in particular, for every backend
`alloc()`, every `setLayout` and every layout, `alloc(layout)` followed by `free()` leaves the
object bufferless once that `free()` completes. -/
theorem free_completion_gives_null_buffer {Dim : Nat} (rt : Runtime) (alloc : Step Dim)
    (setLayout : Layout Dim → Layout Dim → Layout Dim) (layout : Layout Dim) (m : Machine Dim) :
    ((DeviceMemoryStorage.free rt m).1 = Outcome.ok →
        (DeviceMemoryStorage.free rt m).2.obj.getBuffer = 0) ∧
    ((DeviceMemoryStorage.free rt
          (Storage.allocLayout (DeviceMemoryStorage.free rt) alloc setLayout layout m).2).1
        = Outcome.ok →
      (DeviceMemoryStorage.free rt
          (Storage.allocLayout (DeviceMemoryStorage.free rt) alloc setLayout layout m).2).2.obj.getBuffer
        = 0) :=
  ⟨free_ok_buffer rt m, free_ok_buffer rt _⟩

/-- Witness for C1: an object holding address `7` is freed, and an object is allocated with a
new layout by the backend of section 4.6 and freed again; both calls of `free()` complete. -/
theorem free_completion_gives_null_buffer_witness :
    ((DeviceMemoryStorage.free Sample.rtOk (Sample.machine 4 7)).1 = Outcome.ok ∧
      (DeviceMemoryStorage.free Sample.rtOk (Sample.machine 4 7)).2.obj.getBuffer = 0) ∧
    ((DeviceMemoryStorage.free Sample.rtOk
          (Storage.allocLayout (DeviceMemoryStorage.free Sample.rtOk)
            (DeviceMemoryLinear.alloc Sample.rtOk 4) Layout.setLayout (Sample.layout 8)
            (Sample.machine 4 7)).2).1 = Outcome.ok ∧
      (DeviceMemoryStorage.free Sample.rtOk
          (Storage.allocLayout (DeviceMemoryStorage.free Sample.rtOk)
            (DeviceMemoryLinear.alloc Sample.rtOk 4) Layout.setLayout (Sample.layout 8)
            (Sample.machine 4 7)).2).2.obj.getBuffer = 0) :=
  have h := free_completion_gives_null_buffer Sample.rtOk (DeviceMemoryLinear.alloc Sample.rtOk 4)
    Layout.setLayout (Sample.layout 8) (Sample.machine 4 7)
  have h1 : (DeviceMemoryStorage.free Sample.rtOk (Sample.machine 4 7)).1 = Outcome.ok := by
    decide
  have h2 : (DeviceMemoryStorage.free Sample.rtOk
          (Storage.allocLayout (DeviceMemoryStorage.free Sample.rtOk)
            (DeviceMemoryLinear.alloc Sample.rtOk 4) Layout.setLayout (Sample.layout 8)
            (Sample.machine 4 7)).2).1 = Outcome.ok := by
    decide
  ⟨⟨h1, h.1 h1⟩, ⟨h2, h.2 h2⟩⟩

/-- C2, counterexample: with a deallocator that reports status `1`, `free()` on an object
holding address `7` raises, so `free(); free();` faults; the buffer stays `7`, and a second call
made after the first one issues a second deallocator call. -/
theorem free_twice_counterexample :
    (Step.seq (DeviceMemoryStorage.free Sample.rtFail) (DeviceMemoryStorage.free Sample.rtFail)
        (Sample.machine 4 7)).1 = Outcome.thrown 1 ∧
    (DeviceMemoryStorage.free Sample.rtFail (Sample.machine 4 7)).2.obj.getBuffer = 7 ∧
    (DeviceMemoryStorage.free Sample.rtFail (Sample.machine 4 7)).2.trace = [Call.cudaFree 7] ∧
    (DeviceMemoryStorage.free Sample.rtFail
        (DeviceMemoryStorage.free Sample.rtFail (Sample.machine 4 7)).2).2.trace
      = [Call.cudaFree 7, Call.cudaFree 7] := by
  decide

/-- C2, amended: on a bufferless object `free()` returns normally and changes neither the object
nor the trace; and for every object state, when the first `free()` completes (the deallocator
reported no error), a second `free()` returns normally, leaves object and trace as the first
call left them (so it issues no deallocator call), and `free(); free();` equals one `free()`.
When the deallocator reports an error, `free()` raises it after that one call and keeps the
buffer address. -/
theorem free_idempotent_after_completion {Dim : Nat} (rt : Runtime) (m : Machine Dim) :
    (m.obj.getBuffer = 0 → DeviceMemoryStorage.free rt m = (Outcome.ok, m)) ∧
    ((DeviceMemoryStorage.free rt m).1 = Outcome.ok →
      DeviceMemoryStorage.free rt (DeviceMemoryStorage.free rt m).2
          = (Outcome.ok, (DeviceMemoryStorage.free rt m).2) ∧
      Step.seq (DeviceMemoryStorage.free rt) (DeviceMemoryStorage.free rt) m
          = DeviceMemoryStorage.free rt m) ∧
    (m.obj.getBuffer ≠ 0 → rt.cudaFree m.trace m.obj.getBuffer ≠ cudaSuccess →
      DeviceMemoryStorage.free rt m
        = (Outcome.thrown (rt.cudaFree m.trace m.obj.getBuffer),
            { obj := m.obj, trace := m.trace ++ [Call.cudaFree m.obj.getBuffer] })) := by
  refine ⟨fun h => free_of_null rt m h, fun h => ?_, fun hb hs => free_of_failure rt m hb hs⟩
  have h2 : DeviceMemoryStorage.free rt (DeviceMemoryStorage.free rt m).2
      = (Outcome.ok, (DeviceMemoryStorage.free rt m).2) :=
    free_of_null rt _ (free_ok_buffer rt m h)
  refine ⟨h2, ?_⟩
  unfold Step.seq
  generalize hr : DeviceMemoryStorage.free rt m = r at h h2 ⊢
  obtain ⟨o, m1⟩ := r
  cases o with
  | ok => simpa using h2
  | thrown e => cases h

/-- Witness for C2 (amended): a bufferless object, and an object holding address `7` under a
runtime whose deallocator succeeds. -/
theorem free_idempotent_after_completion_witness :
    ((Sample.machine 4 0).obj.getBuffer = 0 ∧
      DeviceMemoryStorage.free Sample.rtFail (Sample.machine 4 0)
        = (Outcome.ok, Sample.machine 4 0)) ∧
    ((DeviceMemoryStorage.free Sample.rtOk (Sample.machine 4 7)).1 = Outcome.ok ∧
      DeviceMemoryStorage.free Sample.rtOk
          (DeviceMemoryStorage.free Sample.rtOk (Sample.machine 4 7)).2
        = (Outcome.ok, (DeviceMemoryStorage.free Sample.rtOk (Sample.machine 4 7)).2) ∧
      Step.seq (DeviceMemoryStorage.free Sample.rtOk) (DeviceMemoryStorage.free Sample.rtOk)
          (Sample.machine 4 7)
        = DeviceMemoryStorage.free Sample.rtOk (Sample.machine 4 7)) :=
  have h0 : (Sample.machine 4 0).obj.getBuffer = 0 := rfl
  have h1 : (DeviceMemoryStorage.free Sample.rtOk (Sample.machine 4 7)).1 = Outcome.ok := by
    decide
  ⟨⟨h0, (free_idempotent_after_completion Sample.rtFail (Sample.machine 4 0)).1 h0⟩,
   ⟨h1, (free_idempotent_after_completion Sample.rtOk (Sample.machine 4 7)).2.1 h1⟩⟩

/-- C3: for every source object `x`: run on any object under construction, the copy
constructor of `Pointer` sets a null buffer and keeps the layout the most derived class gave the
virtual base, and the copy constructors of `PointerStorage`, `DeviceMemory` and
`DeviceMemoryStorage` change nothing; so whatever layout `vl` the most derived class
initialises, the object built through them has a null `getBuffer()` and layout `vl`.  With the
most derived copy constructor of section 4.6, which initialises `Layout(x)`, the copy has a null
`getBuffer()` and the layout (extents and strides) of `x`, and `x` is unchanged; hence when
`x.getBuffer()` is not null the address of the copy differs from it. -/
theorem copy_is_bufferless_with_same_layout {Dim : Nat} (x self : Pointer Dim)
    (vl : Layout Dim) (junk : Nat) :
    ((Pointer.ctorCopy x self).getBuffer = 0 ∧
      (Pointer.ctorCopy x self).toLayout = self.toLayout) ∧
    PointerStorage.ctorCopy x self = self ∧
    DeviceMemory.ctorCopy x self = self ∧
    DeviceMemoryStorage.ctorCopy x self = self ∧
    MostDerived.construct vl junk (Pointer.ctorCopy x) (DeviceMemoryStorage.ctorCopy x)
      = { toLayout := vl, buffer := 0 } ∧
    ((MostDerived.ctorCopy x junk).object.getBuffer = 0 ∧
      (MostDerived.ctorCopy x junk).object.toLayout = x.toLayout ∧
      (MostDerived.ctorCopy x junk).source = x) ∧
    (x.getBuffer ≠ 0 →
      (MostDerived.ctorCopy x junk).source.getBuffer
        ≠ (MostDerived.ctorCopy x junk).object.getBuffer) := by
  refine ⟨⟨rfl, rfl⟩, rfl, rfl, rfl, rfl, ⟨rfl, rfl, rfl⟩, fun h => ?_⟩
  exact h

/-- Witness for C3: the copy of a four-element object that holds address `7`, built in storage
whose `buffer` held `99` before: null buffer, extent `4`, an address other than `7`. -/
theorem copy_is_bufferless_with_same_layout_witness :
    (Sample.machine 4 7).obj.getBuffer ≠ 0 ∧
    (MostDerived.ctorCopy (Sample.machine 4 7).obj 99).object.getBuffer = 0 ∧
    (MostDerived.ctorCopy (Sample.machine 4 7).obj 99).object.toLayout
      = (Sample.machine 4 7).obj.toLayout ∧
    (MostDerived.ctorCopy (Sample.machine 4 7).obj 99).source.getBuffer
      ≠ (MostDerived.ctorCopy (Sample.machine 4 7).obj 99).object.getBuffer :=
  have h : (Sample.machine 4 7).obj.getBuffer ≠ 0 := by decide
  have t := copy_is_bufferless_with_same_layout (Sample.machine 4 7).obj
    (Sample.machine 4 7).obj (Sample.layout 4) 99
  ⟨h, t.2.2.2.2.2.1.1, t.2.2.2.2.2.1.2.1, t.2.2.2.2.2.2 h⟩

theorem dtor_of_null {Dim : Nat} (rt : Runtime) (m : Machine Dim) (h : m.obj.buffer = 0) :
    DeviceMemoryStorage.dtor rt m = (Outcome.ok, m) :=
  free_of_null rt m h

theorem free_trace_of_buffer {Dim : Nat} (rt : Runtime) (m : Machine Dim)
    (h : m.obj.buffer ≠ 0) :
    (DeviceMemoryStorage.free rt m).2.trace = m.trace ++ [Call.cudaFree m.obj.buffer] := by
  by_cases hs : rt.cudaFree m.trace m.obj.buffer = cudaSuccess
  · rw [free_of_success rt m h hs]
  · rw [free_of_failure rt m h hs]

/-- C9: the destructor of `DeviceMemoryStorage` is exactly a call of `free()`.  Destroying an
object whose `getBuffer()` is not null appends exactly one deallocate call, for that address, to
the trace.  Destroying a bufferless object returns normally and changes neither object nor
trace; this covers a freshly constructed object (default, size and layout constructors), a
copy-constructed object, each with whatever layout its most derived class initialises, an object
after a completed `free()` and an object after `init()`. -/
theorem dtor_releases_exactly_the_owned_buffer {Dim : Nat} (rt : Runtime) (m : Machine Dim)
    (vl layout : Layout Dim) (size : Fin Dim → Nat) (junk : Nat) (t : List Call) :
    DeviceMemoryStorage.dtor rt m = DeviceMemoryStorage.free rt m ∧
    (m.obj.getBuffer ≠ 0 →
      (DeviceMemoryStorage.dtor rt m).2.trace = m.trace ++ [Call.cudaFree m.obj.getBuffer]) ∧
    (m.obj.getBuffer = 0 → DeviceMemoryStorage.dtor rt m = (Outcome.ok, m)) ∧
    DeviceMemoryStorage.dtor rt
        { obj := MostDerived.construct vl junk Pointer.ctor DeviceMemoryStorage.ctor,
          trace := t }
      = (Outcome.ok,
          { obj := MostDerived.construct vl junk Pointer.ctor DeviceMemoryStorage.ctor,
            trace := t }) ∧
    DeviceMemoryStorage.dtor rt
        { obj := MostDerived.construct vl junk (Pointer.ctorSize size)
            (DeviceMemoryStorage.ctorSize size),
          trace := t }
      = (Outcome.ok,
          { obj := MostDerived.construct vl junk (Pointer.ctorSize size)
              (DeviceMemoryStorage.ctorSize size),
            trace := t }) ∧
    DeviceMemoryStorage.dtor rt
        { obj := MostDerived.construct vl junk (Pointer.ctorLayout layout)
            (DeviceMemoryStorage.ctorLayout layout),
          trace := t }
      = (Outcome.ok,
          { obj := MostDerived.construct vl junk (Pointer.ctorLayout layout)
              (DeviceMemoryStorage.ctorLayout layout),
            trace := t }) ∧
    DeviceMemoryStorage.dtor rt
        { obj := MostDerived.construct vl junk (Pointer.ctorCopy m.obj)
            (DeviceMemoryStorage.ctorCopy m.obj),
          trace := t }
      = (Outcome.ok,
          { obj := MostDerived.construct vl junk (Pointer.ctorCopy m.obj)
              (DeviceMemoryStorage.ctorCopy m.obj),
            trace := t }) ∧
    ((DeviceMemoryStorage.free rt m).1 = Outcome.ok →
      DeviceMemoryStorage.dtor rt (DeviceMemoryStorage.free rt m).2
        = (Outcome.ok, (DeviceMemoryStorage.free rt m).2)) ∧
    DeviceMemoryStorage.dtor rt (DeviceMemoryStorage.init m).2
      = (Outcome.ok, (DeviceMemoryStorage.init m).2) :=
  ⟨rfl, free_trace_of_buffer rt m, dtor_of_null rt m, dtor_of_null rt _ rfl,
    dtor_of_null rt _ rfl, dtor_of_null rt _ rfl, dtor_of_null rt _ rfl,
    fun h => dtor_of_null rt _ (free_ok_buffer rt m h), dtor_of_null rt _ rfl⟩

/-- Witness for C9: destroying an object that holds address `7` issues the single call
`cudaFree(7)`; destroying a bufferless object and an object after a completed `free()` issues
none. -/
theorem dtor_releases_exactly_the_owned_buffer_witness :
    ((Sample.machine 4 7).obj.getBuffer ≠ 0 ∧
      (DeviceMemoryStorage.dtor Sample.rtOk (Sample.machine 4 7)).2.trace
        = (Sample.machine 4 7).trace ++ [Call.cudaFree (Sample.machine 4 7).obj.getBuffer]) ∧
    ((Sample.machine 4 0).obj.getBuffer = 0 ∧
      DeviceMemoryStorage.dtor Sample.rtOk (Sample.machine 4 0)
        = (Outcome.ok, Sample.machine 4 0)) ∧
    ((DeviceMemoryStorage.free Sample.rtOk (Sample.machine 4 7)).1 = Outcome.ok ∧
      DeviceMemoryStorage.dtor Sample.rtOk
          (DeviceMemoryStorage.free Sample.rtOk (Sample.machine 4 7)).2
        = (Outcome.ok, (DeviceMemoryStorage.free Sample.rtOk (Sample.machine 4 7)).2)) :=
  have h7 : (Sample.machine 4 7).obj.getBuffer ≠ 0 := by decide
  have h0 : (Sample.machine 4 0).obj.getBuffer = 0 := rfl
  have hf : (DeviceMemoryStorage.free Sample.rtOk (Sample.machine 4 7)).1 = Outcome.ok := by
    decide
  ⟨⟨h7, (dtor_releases_exactly_the_owned_buffer Sample.rtOk (Sample.machine 4 7)
      (Sample.layout 4) (Sample.layout 4) (fun _ => 4) 99 []).2.1 h7⟩,
   ⟨h0, (dtor_releases_exactly_the_owned_buffer Sample.rtOk (Sample.machine 4 0)
      (Sample.layout 4) (Sample.layout 4) (fun _ => 4) 99 []).2.2.1 h0⟩,
   ⟨hf, (dtor_releases_exactly_the_owned_buffer Sample.rtOk (Sample.machine 4 7)
      (Sample.layout 4) (Sample.layout 4) (fun _ => 4) 99
      []).2.2.2.2.2.2.2.1 hf⟩⟩

/-! ## Claims on `initMem` -/

/-- C7: on a bufferless object `initMem(val, sync)` returns normally and leaves the object
(null buffer and layout) and the trace unchanged, so it issues neither a fill nor a
synchronisation, for every value, sync flag, element size, layout and runtime. -/
theorem initMem_bufferless_is_noop {Dim : Nat} (rt : Runtime) (sizeofType : Nat) (val : Int)
    (sync : Bool) (m : Machine Dim) (h : m.obj.getBuffer = 0) :
    DeviceMemory.initMem rt sizeofType val sync m = (Outcome.ok, m) := by
  have hb : m.obj.buffer = 0 := h
  simp [DeviceMemory.initMem, hb]

/-- Witness for C7: a bufferless object under a runtime whose fill would fail. -/
theorem initMem_bufferless_is_noop_witness :
    (Sample.machine 4 0).obj.getBuffer = 0 ∧
    DeviceMemory.initMem Sample.rtFail 4 255 true (Sample.machine 4 0)
      = (Outcome.ok, Sample.machine 4 0) :=
  ⟨rfl, initMem_bufferless_is_noop Sample.rtFail 4 255 true (Sample.machine 4 0) rfl⟩

theorem getSize_eq_prod {Dim : Nat} (l : Layout Dim) : l.getSize = ∏ i, l.size i := by
  simp [Layout.getSize, List.prod_ofFn]

/-- C8: on an object holding a buffer, `initMem(val, sync)` issues exactly one fill, at the
address of the buffer, with value `val` and the byte count `getSize() * sizeof(Type)` computed
in `size_t`, which is (product of the extents) * (element size) whenever that product fits
`size_t`.  When the fill reports success the call returns normally and the accelerator is
waited for exactly when `sync` is true; when the fill reports an error the error is raised and
no wait is issued.  In both cases buffer address and layout are unchanged. -/
theorem initMem_fills_whole_buffer {Dim : Nat} (rt : Runtime) (sizeofType : Nat) (val : Int)
    (sync : Bool) (m : Machine Dim) (h : m.obj.getBuffer ≠ 0) :
    (rt.cudaMemset m.trace m.obj.getBuffer val
          (((∏ i, m.obj.size i) * sizeofType) % 2 ^ SIZE_BITS) = cudaSuccess →
      DeviceMemory.initMem rt sizeofType val sync m =
        (Outcome.ok,
          { obj := m.obj,
            trace := m.trace ++
              [Call.cudaMemset m.obj.getBuffer val
                (((∏ i, m.obj.size i) * sizeofType) % 2 ^ SIZE_BITS)] ++
              (if sync then [Call.cudaThreadSynchronize] else []) })) ∧
    (rt.cudaMemset m.trace m.obj.getBuffer val
          (((∏ i, m.obj.size i) * sizeofType) % 2 ^ SIZE_BITS) ≠ cudaSuccess →
      DeviceMemory.initMem rt sizeofType val sync m =
        (Outcome.thrown (rt.cudaMemset m.trace m.obj.getBuffer val
            (((∏ i, m.obj.size i) * sizeofType) % 2 ^ SIZE_BITS)),
          { obj := m.obj,
            trace := m.trace ++
              [Call.cudaMemset m.obj.getBuffer val
                (((∏ i, m.obj.size i) * sizeofType) % 2 ^ SIZE_BITS)] })) ∧
    ((∏ i, m.obj.size i) * sizeofType < 2 ^ SIZE_BITS →
      ((∏ i, m.obj.size i) * sizeofType) % 2 ^ SIZE_BITS = (∏ i, m.obj.size i) * sizeofType) := by
  have hb : m.obj.buffer ≠ 0 := h
  refine ⟨fun hs => ?_, fun hs => ?_, fun hlt => Nat.mod_eq_of_lt hlt⟩
  · simp only [Pointer.getBuffer] at hs ⊢
    cases sync <;>
      simp [DeviceMemory.initMem, hb, sizeMul, getSize_eq_prod, hs, CUDA_CHECK]
  · simp only [Pointer.getBuffer] at hs ⊢
    simp [DeviceMemory.initMem, hb, sizeMul, getSize_eq_prod, hs, CUDA_CHECK]

/-- Witness for C8: four elements of four bytes at address `7`: one fill of `16` bytes with
value `255`, followed by a wait because `sync` is true; with a failing fill the error is raised
after the single fill call. -/
theorem initMem_fills_whole_buffer_witness :
    (Sample.machine 4 7).obj.getBuffer ≠ 0 ∧
    (∏ i, (Sample.machine 4 7).obj.size i) * 4 < 2 ^ SIZE_BITS ∧
    DeviceMemory.initMem Sample.rtOk 4 255 true (Sample.machine 4 7)
      = (Outcome.ok, { obj := (Sample.machine 4 7).obj,
                       trace := [Call.cudaMemset 7 255 16, Call.cudaThreadSynchronize] }) ∧
    DeviceMemory.initMem Sample.rtFail 4 255 true (Sample.machine 4 7)
      = (Outcome.thrown 1, { obj := (Sample.machine 4 7).obj,
                             trace := [Call.cudaMemset 7 255 16] }) := by
  have h7 : (Sample.machine 4 7).obj.getBuffer ≠ 0 := by decide
  have hfit : (∏ i, (Sample.machine 4 7).obj.size i) * 4 < 2 ^ SIZE_BITS := by
    simp [Sample.machine, Sample.layout, SIZE_BITS]
  have hok := (initMem_fills_whole_buffer Sample.rtOk 4 255 true (Sample.machine 4 7) h7).1 rfl
  have hbad := (initMem_fills_whole_buffer Sample.rtFail 4 255 true (Sample.machine 4 7) h7).2.1
    (by decide)
  have hcount :=
    (initMem_fills_whole_buffer Sample.rtOk 4 255 true (Sample.machine 4 7) h7).2.2 hfit
  have h16 : (∏ i, (Sample.machine 4 7).obj.size i) * 4 = 16 := by
    simp [Sample.machine, Sample.layout]
  rw [hcount, h16] at hok hbad
  exact ⟨h7, hfit, hok, hbad⟩

/-! ## Claims on `Storage::alloc(newSize)` and `Storage::alloc(newLayout)` -/

theorem seq_of_ok {Dim : Nat} (a b : Step Dim) (m m1 : Machine Dim)
    (h : a m = (Outcome.ok, m1)) : Step.seq a b m = b m1 := by
  simp [Step.seq, h]

theorem seq_of_thrown {Dim : Nat} (a b : Step Dim) (m m1 : Machine Dim) (e : Nat)
    (h : a m = (Outcome.thrown e, m1)) : Step.seq a b m = (Outcome.thrown e, m1) := by
  simp [Step.seq, h]

theorem seq_onLayout {Dim : Nat} (f : Layout Dim → Layout Dim) (alloc : Step Dim)
    (m : Machine Dim) :
    Step.seq (Step.onLayout f) alloc m
      = alloc { obj := { toLayout := f m.obj.toLayout, buffer := m.obj.buffer },
                trace := m.trace } :=
  rfl

/-- The common body `free(); set...(); alloc();` of the two overloads, for a bufferless
object: the backend runs on the object with the new layout and an unchanged trace. -/
theorem realloc_of_null {Dim : Nat} (rt : Runtime) (alloc : Step Dim)
    (f : Layout Dim → Layout Dim) (m : Machine Dim) (h : m.obj.buffer = 0) :
    Step.seq (DeviceMemoryStorage.free rt) (Step.seq (Step.onLayout f) alloc) m
      = alloc { obj := { toLayout := f m.obj.toLayout, buffer := 0 }, trace := m.trace } := by
  rw [seq_of_ok _ _ m m (free_of_null rt m h), seq_onLayout, h]

/-- The common body of the two overloads for an object holding a buffer that the deallocator
releases: the backend runs with a null buffer, the new layout, and one more call in the
trace. -/
theorem realloc_of_success {Dim : Nat} (rt : Runtime) (alloc : Step Dim)
    (f : Layout Dim → Layout Dim) (m : Machine Dim) (h : m.obj.buffer ≠ 0)
    (hs : rt.cudaFree m.trace m.obj.buffer = cudaSuccess) :
    Step.seq (DeviceMemoryStorage.free rt) (Step.seq (Step.onLayout f) alloc) m
      = alloc { obj := { toLayout := f m.obj.toLayout, buffer := 0 },
                trace := m.trace ++ [Call.cudaFree m.obj.buffer] } := by
  rw [seq_of_ok _ _ m _ (free_of_success rt m h hs), seq_onLayout]

/-- The common body of the two overloads when the deallocator reports an error: the error
propagates, neither the layout setter nor the backend runs. -/
theorem realloc_of_failure {Dim : Nat} (rt : Runtime) (alloc : Step Dim)
    (f : Layout Dim → Layout Dim) (m : Machine Dim) (h : m.obj.buffer ≠ 0)
    (hs : rt.cudaFree m.trace m.obj.buffer ≠ cudaSuccess) :
    Step.seq (DeviceMemoryStorage.free rt) (Step.seq (Step.onLayout f) alloc) m
      = (Outcome.thrown (rt.cudaFree m.trace m.obj.buffer),
          { m with trace := m.trace ++ [Call.cudaFree m.obj.buffer] }) :=
  seq_of_thrown _ _ m _ _ (free_of_failure rt m h hs)

/-- When `free()` completes, the common body continues with the backend on the machine that
`free()` left, with a null buffer and the new layout. -/
theorem realloc_of_free_ok {Dim : Nat} (rt : Runtime) (alloc : Step Dim)
    (f : Layout Dim → Layout Dim) (m : Machine Dim)
    (h : (DeviceMemoryStorage.free rt m).1 = Outcome.ok) :
    Step.seq (DeviceMemoryStorage.free rt) (Step.seq (Step.onLayout f) alloc) m
      = alloc { obj := { toLayout := f m.obj.toLayout, buffer := 0 },
                trace := (DeviceMemoryStorage.free rt m).2.trace } := by
  by_cases hb : m.obj.buffer = 0
  · rw [realloc_of_null rt alloc f m hb, free_of_null rt m hb]
  · by_cases hs : rt.cudaFree m.trace m.obj.buffer = cudaSuccess
    · rw [realloc_of_success rt alloc f m hb hs, free_of_success rt m hb hs]
    · rw [free_of_failure rt m hb hs] at h
      cases h

theorem linear_alloc_trace {Dim : Nat} (rt : Runtime) (sizeofType : Nat) (m : Machine Dim) :
    (DeviceMemoryLinear.alloc rt sizeofType m).2.trace
      = m.trace ++ [Call.cudaMalloc (sizeMul m.obj.toLayout.getSize sizeofType)] := by
  unfold DeviceMemoryLinear.alloc
  simp only
  split <;> rfl

theorem linear_alloc_failure_keeps_object {Dim : Nat} (rt : Runtime) (sizeofType : Nat)
    (m : Machine Dim) (h : (DeviceMemoryLinear.alloc rt sizeofType m).1 ≠ Outcome.ok) :
    (DeviceMemoryLinear.alloc rt sizeofType m).2.obj = m.obj := by
  unfold DeviceMemoryLinear.alloc at h ⊢
  simp only at h ⊢
  split
  · rfl
  · rename_i hc
    rw [hc] at h
    exact absurd rfl h

/-- C4: for every object, runtime, backend `alloc()`, `setSize`/`setLayout` and every new size
or layout, `Storage::alloc(newSize)` and `Storage::alloc(newLayout)` are the sequence `free()`,
then `setSize`/`setLayout`, then the backend `alloc()`.  Whenever `free()` completes, the backend
`alloc()` runs on an object with a null buffer and the layout already set to the new one, on
the trace `free()` left.  For an already-allocated object whose buffer is released, that trace
is the old trace followed by exactly one deallocate of the old address, and with the backend of
section 4.6 the whole trace is the old one, that deallocate, then the allocate for the new
layout.  If the deallocator reports an error, the call ends there and no backend `alloc()`
runs. -/
theorem realloc_frees_before_allocating {Dim : Nat} (rt : Runtime) (alloc : Step Dim)
    (setSize : (Fin Dim → Nat) → Layout Dim → Layout Dim)
    (setLayout : Layout Dim → Layout Dim → Layout Dim)
    (E2 : Fin Dim → Nat) (L2 : Layout Dim) (sizeofType : Nat) (m : Machine Dim) :
    (Storage.allocSize (DeviceMemoryStorage.free rt) alloc setSize E2
        = Step.seq (DeviceMemoryStorage.free rt) (Step.seq (Step.onLayout (setSize E2)) alloc) ∧
      Storage.allocLayout (DeviceMemoryStorage.free rt) alloc setLayout L2
        = Step.seq (DeviceMemoryStorage.free rt)
            (Step.seq (Step.onLayout (setLayout L2)) alloc)) ∧
    ((DeviceMemoryStorage.free rt m).1 = Outcome.ok →
      Storage.allocSize (DeviceMemoryStorage.free rt) alloc setSize E2 m
        = alloc { obj := { toLayout := setSize E2 m.obj.toLayout, buffer := 0 },
                  trace := (DeviceMemoryStorage.free rt m).2.trace } ∧
      Storage.allocLayout (DeviceMemoryStorage.free rt) alloc setLayout L2 m
        = alloc { obj := { toLayout := setLayout L2 m.obj.toLayout, buffer := 0 },
                  trace := (DeviceMemoryStorage.free rt m).2.trace }) ∧
    (m.obj.getBuffer ≠ 0 → rt.cudaFree m.trace m.obj.getBuffer = cudaSuccess →
      Storage.allocSize (DeviceMemoryStorage.free rt) alloc setSize E2 m
        = alloc { obj := { toLayout := setSize E2 m.obj.toLayout, buffer := 0 },
                  trace := m.trace ++ [Call.cudaFree m.obj.getBuffer] } ∧
      Storage.allocLayout (DeviceMemoryStorage.free rt) alloc setLayout L2 m
        = alloc { obj := { toLayout := setLayout L2 m.obj.toLayout, buffer := 0 },
                  trace := m.trace ++ [Call.cudaFree m.obj.getBuffer] } ∧
      (Storage.allocSize (DeviceMemoryStorage.free rt) (DeviceMemoryLinear.alloc rt sizeofType)
          setSize E2 m).2.trace
        = m.trace ++ [Call.cudaFree m.obj.getBuffer,
            Call.cudaMalloc (sizeMul (setSize E2 m.obj.toLayout).getSize sizeofType)] ∧
      (Storage.allocLayout (DeviceMemoryStorage.free rt) (DeviceMemoryLinear.alloc rt sizeofType)
          setLayout L2 m).2.trace
        = m.trace ++ [Call.cudaFree m.obj.getBuffer,
            Call.cudaMalloc (sizeMul (setLayout L2 m.obj.toLayout).getSize sizeofType)]) ∧
    (m.obj.getBuffer ≠ 0 → rt.cudaFree m.trace m.obj.getBuffer ≠ cudaSuccess →
      Storage.allocSize (DeviceMemoryStorage.free rt) alloc setSize E2 m
        = (Outcome.thrown (rt.cudaFree m.trace m.obj.getBuffer),
            { obj := m.obj, trace := m.trace ++ [Call.cudaFree m.obj.getBuffer] }) ∧
      Storage.allocLayout (DeviceMemoryStorage.free rt) alloc setLayout L2 m
        = (Outcome.thrown (rt.cudaFree m.trace m.obj.getBuffer),
            { obj := m.obj, trace := m.trace ++ [Call.cudaFree m.obj.getBuffer] })) := by
  refine ⟨⟨rfl, rfl⟩, fun h => ⟨?_, ?_⟩, fun hb hs => ⟨?_, ?_, ?_, ?_⟩, fun hb hs => ⟨?_, ?_⟩⟩
  · exact realloc_of_free_ok rt alloc (setSize E2) m h
  · exact realloc_of_free_ok rt alloc (setLayout L2) m h
  · exact realloc_of_success rt alloc (setSize E2) m hb hs
  · exact realloc_of_success rt alloc (setLayout L2) m hb hs
  · unfold Storage.allocSize
    rw [realloc_of_success rt _ (setSize E2) m hb hs, linear_alloc_trace]
    simp [Pointer.getBuffer]
  · unfold Storage.allocLayout
    rw [realloc_of_success rt _ (setLayout L2) m hb hs, linear_alloc_trace]
    simp [Pointer.getBuffer]
  · exact realloc_of_failure rt alloc (setSize E2) m hb hs
  · exact realloc_of_failure rt alloc (setLayout L2) m hb hs

/-- Witness for C4: an object of four elements at address `7` is resized to eight elements of
four bytes: the trace is `cudaFree(7)` followed by `cudaMalloc(32)`, and the object then holds
the address the allocator answered. -/
theorem realloc_frees_before_allocating_witness :
    (Sample.machine 4 7).obj.getBuffer ≠ 0 ∧
    Sample.rtOk.cudaFree (Sample.machine 4 7).trace (Sample.machine 4 7).obj.getBuffer
      = cudaSuccess ∧
    (Storage.allocSize (DeviceMemoryStorage.free Sample.rtOk)
        (DeviceMemoryLinear.alloc Sample.rtOk 4) Sample.setSize (fun _ => 8)
        (Sample.machine 4 7)).2.trace = [Call.cudaFree 7, Call.cudaMalloc 32] ∧
    (Storage.allocLayout (DeviceMemoryStorage.free Sample.rtOk)
        (DeviceMemoryLinear.alloc Sample.rtOk 4) Layout.setLayout (Sample.layout 8)
        (Sample.machine 4 7)).2.trace = [Call.cudaFree 7, Call.cudaMalloc 32] ∧
    (Storage.allocSize (DeviceMemoryStorage.free Sample.rtOk)
        (DeviceMemoryLinear.alloc Sample.rtOk 4) Sample.setSize (fun _ => 8)
        (Sample.machine 4 7)).2.obj.getBuffer = 4096 := by
  have hb : (Sample.machine 4 7).obj.getBuffer ≠ 0 := by decide
  have hs : Sample.rtOk.cudaFree (Sample.machine 4 7).trace (Sample.machine 4 7).obj.getBuffer
      = cudaSuccess := rfl
  have h := (realloc_frees_before_allocating Sample.rtOk (DeviceMemoryLinear.alloc Sample.rtOk 4)
    Sample.setSize Layout.setLayout (fun _ => 8) (Sample.layout 8) 4 (Sample.machine 4 7)).2.2.1
    hb hs
  refine ⟨hb, hs, ?_, ?_, by decide⟩
  · rw [h.2.2.1]; decide
  · rw [h.2.2.2]; decide

/-- C6: for every object state (with or without a prior buffer), runtime, new size or layout,
and every backend `alloc()` that stores an address only on success: if the backend allocation
step of `alloc(newSize)`/`alloc(newLayout)` fails (`free()` completed and the call raised),
`getBuffer()` is null afterwards, and a following `free()` or destruction returns normally and
leaves object and trace unchanged, so it issues no deallocator call. -/
theorem failed_alloc_leaves_null_buffer {Dim : Nat} (rt : Runtime) (alloc : Step Dim)
    (setSize : (Fin Dim → Nat) → Layout Dim → Layout Dim)
    (setLayout : Layout Dim → Layout Dim → Layout Dim)
    (E : Fin Dim → Nat) (L : Layout Dim) (m : Machine Dim)
    (halloc : ∀ m1 : Machine Dim,
      (alloc m1).1 ≠ Outcome.ok → (alloc m1).2.obj.buffer = m1.obj.buffer) :
    ((DeviceMemoryStorage.free rt m).1 = Outcome.ok →
      (Storage.allocSize (DeviceMemoryStorage.free rt) alloc setSize E m).1 ≠ Outcome.ok →
      (Storage.allocSize (DeviceMemoryStorage.free rt) alloc setSize E m).2.obj.getBuffer = 0 ∧
      DeviceMemoryStorage.free rt
          (Storage.allocSize (DeviceMemoryStorage.free rt) alloc setSize E m).2
        = (Outcome.ok, (Storage.allocSize (DeviceMemoryStorage.free rt) alloc setSize E m).2) ∧
      DeviceMemoryStorage.dtor rt
          (Storage.allocSize (DeviceMemoryStorage.free rt) alloc setSize E m).2
        = (Outcome.ok, (Storage.allocSize (DeviceMemoryStorage.free rt) alloc setSize E m).2)) ∧
    ((DeviceMemoryStorage.free rt m).1 = Outcome.ok →
      (Storage.allocLayout (DeviceMemoryStorage.free rt) alloc setLayout L m).1 ≠ Outcome.ok →
      (Storage.allocLayout (DeviceMemoryStorage.free rt) alloc setLayout L m).2.obj.getBuffer
        = 0 ∧
      DeviceMemoryStorage.free rt
          (Storage.allocLayout (DeviceMemoryStorage.free rt) alloc setLayout L m).2
        = (Outcome.ok,
            (Storage.allocLayout (DeviceMemoryStorage.free rt) alloc setLayout L m).2) ∧
      DeviceMemoryStorage.dtor rt
          (Storage.allocLayout (DeviceMemoryStorage.free rt) alloc setLayout L m).2
        = (Outcome.ok,
            (Storage.allocLayout (DeviceMemoryStorage.free rt) alloc setLayout L m).2)) := by
  have key : ∀ f : Layout Dim → Layout Dim,
      (DeviceMemoryStorage.free rt m).1 = Outcome.ok →
      (Step.seq (DeviceMemoryStorage.free rt) (Step.seq (Step.onLayout f) alloc) m).1
        ≠ Outcome.ok →
      (Step.seq (DeviceMemoryStorage.free rt)
        (Step.seq (Step.onLayout f) alloc) m).2.obj.buffer = 0 := by
    intro f hf hfail
    rw [realloc_of_free_ok rt alloc f m hf] at hfail ⊢
    exact halloc _ hfail
  refine ⟨fun hf hfail => ?_, fun hf hfail => ?_⟩
  · have hb := key (setSize E) hf hfail
    exact ⟨hb, free_of_null rt _ hb, dtor_of_null rt _ hb⟩
  · have hb := key (setLayout L) hf hfail
    exact ⟨hb, free_of_null rt _ hb, dtor_of_null rt _ hb⟩

/-- Witness for C6: an object at address `7` is resized while the allocator is out of memory;
the call raises, the buffer is null, and the following `free()` issues no call: the trace stays
`cudaFree(7)`, `cudaMalloc(32)`. -/
theorem failed_alloc_leaves_null_buffer_witness :
    (∀ m1 : Machine 1, (DeviceMemoryLinear.alloc Sample.rtNoMem 4 m1).1 ≠ Outcome.ok →
      (DeviceMemoryLinear.alloc Sample.rtNoMem 4 m1).2.obj.buffer = m1.obj.buffer) ∧
    (DeviceMemoryStorage.free Sample.rtNoMem (Sample.machine 4 7)).1 = Outcome.ok ∧
    (Storage.allocSize (DeviceMemoryStorage.free Sample.rtNoMem)
        (DeviceMemoryLinear.alloc Sample.rtNoMem 4) Sample.setSize (fun _ => 8)
        (Sample.machine 4 7)).1 ≠ Outcome.ok ∧
    (Storage.allocSize (DeviceMemoryStorage.free Sample.rtNoMem)
        (DeviceMemoryLinear.alloc Sample.rtNoMem 4) Sample.setSize (fun _ => 8)
        (Sample.machine 4 7)).2.obj.getBuffer = 0 ∧
    (Storage.allocLayout (DeviceMemoryStorage.free Sample.rtNoMem)
        (DeviceMemoryLinear.alloc Sample.rtNoMem 4) Layout.setLayout (Sample.layout 8)
        (Sample.machine 4 7)).2.obj.getBuffer = 0 ∧
    (DeviceMemoryStorage.free Sample.rtNoMem
        (Storage.allocSize (DeviceMemoryStorage.free Sample.rtNoMem)
          (DeviceMemoryLinear.alloc Sample.rtNoMem 4) Sample.setSize (fun _ => 8)
          (Sample.machine 4 7)).2).2.trace = [Call.cudaFree 7, Call.cudaMalloc 32] :=
  have ha : ∀ m1 : Machine 1, (DeviceMemoryLinear.alloc Sample.rtNoMem 4 m1).1 ≠ Outcome.ok →
      (DeviceMemoryLinear.alloc Sample.rtNoMem 4 m1).2.obj.buffer = m1.obj.buffer :=
    fun m1 h => congrArg Pointer.buffer (linear_alloc_failure_keeps_object Sample.rtNoMem 4 m1 h)
  have hf : (DeviceMemoryStorage.free Sample.rtNoMem (Sample.machine 4 7)).1 = Outcome.ok := by
    decide
  have hs : (Storage.allocSize (DeviceMemoryStorage.free Sample.rtNoMem)
        (DeviceMemoryLinear.alloc Sample.rtNoMem 4) Sample.setSize (fun _ => 8)
        (Sample.machine 4 7)).1 ≠ Outcome.ok := by
    decide
  have hl : (Storage.allocLayout (DeviceMemoryStorage.free Sample.rtNoMem)
        (DeviceMemoryLinear.alloc Sample.rtNoMem 4) Layout.setLayout (Sample.layout 8)
        (Sample.machine 4 7)).1 ≠ Outcome.ok := by
    decide
  have h := failed_alloc_leaves_null_buffer Sample.rtNoMem
    (DeviceMemoryLinear.alloc Sample.rtNoMem 4) Sample.setSize Layout.setLayout (fun _ => 8)
    (Sample.layout 8) (Sample.machine 4 7) ha
  ⟨ha, hf, hs, (h.1 hf hs).1, (h.2 hf hl).1, by decide⟩

/-! ## The kernel view descriptor -/

theorem intOfUnsigned_of_lt {u : Nat} (h : u < 2 ^ (INT_BITS - 1)) :
    intOfUnsigned u = Int.ofNat u := by
  have h32 : u < 2 ^ INT_BITS :=
    lt_of_lt_of_le h (Nat.pow_le_pow_right (by decide) (Nat.sub_le _ _))
  have hmod : u % 2 ^ INT_BITS = u := Nat.mod_eq_of_lt h32
  unfold intOfUnsigned
  rw [hmod, if_pos h]
  rfl

/-- Invariant of the count-down loop: entered with counter `i <= Dim`, it ends, has written
exactly the entries below `i` from `mem`, kept the others, and visited `i-1, ..., 0`. -/
theorem copyLoop_spec {Dim : Nat} (mem : Pointer Dim) :
    ∀ (i : Nat), i ≤ Dim → ∀ (kd : DeviceMemory.KernelData Dim) (visited : List Nat),
      DeviceMemory.KernelData.copyLoop mem i kd visited
        = some ({ data := kd.data,
                  size := fun j => if j.val < i then mem.size j else kd.size j,
                  stride := fun j => if j.val < i then mem.stride j else kd.stride j },
                visited ++ (List.range i).reverse) := by
  intro i
  induction i with
  | zero =>
    intro _ kd visited
    simp [DeviceMemory.KernelData.copyLoop]
  | succ i ih =>
    intro hle kd visited
    have hlt : i < Dim := hle
    rw [DeviceMemory.KernelData.copyLoop, dif_pos hlt, ih (Nat.le_of_lt hlt)]
    have hsize : (fun j : Fin Dim => if j.val < i then mem.size j
          else Function.update kd.size ⟨i, hlt⟩ (mem.size ⟨i, hlt⟩) j)
        = fun j : Fin Dim => if j.val < i + 1 then mem.size j else kd.size j := by
      funext j
      by_cases h1 : j.val < i
      · simp [h1, Nat.lt_succ_of_lt h1]
      · by_cases h2 : j = ⟨i, hlt⟩
        · subst h2
          simp
        · have h3 : ¬ j.val < i + 1 := by
            intro h
            exact h2 (Fin.ext (Nat.le_antisymm (Nat.le_of_lt_succ h) (Nat.le_of_not_lt h1)))
          simp [h1, h2, h3]
    have hstride : (fun j : Fin Dim => if j.val < i then mem.stride j
          else Function.update kd.stride ⟨i, hlt⟩ (mem.stride ⟨i, hlt⟩) j)
        = fun j : Fin Dim => if j.val < i + 1 then mem.stride j else kd.stride j := by
      funext j
      by_cases h1 : j.val < i
      · simp [h1, Nat.lt_succ_of_lt h1]
      · by_cases h2 : j = ⟨i, hlt⟩
        · subst h2
          simp
        · have h3 : ¬ j.val < i + 1 := by
            intro h
            exact h2 (Fin.ext (Nat.le_antisymm (Nat.le_of_lt_succ h) (Nat.le_of_not_lt h1)))
          simp [h1, h2, h3]
    simp only [hsize, hstride, List.range_succ, List.reverse_append, List.reverse_cons,
      List.reverse_nil, List.nil_append, List.append_assoc, List.singleton_append]

theorem ctorMem_eq {Dim : Nat} (mem : Pointer Dim) (junkSize junkStride : Fin Dim → Nat)
    (hDim : Dim < 2 ^ (INT_BITS - 1)) :
    DeviceMemory.KernelData.ctorMem mem junkSize junkStride
      = some { mem := mem,
               kernelData := { data := mem.getBuffer, size := mem.size, stride := mem.stride },
               visited := (List.range Dim).reverse } := by
  unfold DeviceMemory.KernelData.ctorMem
  rw [intOfUnsigned_of_lt hDim]
  simp only [copyLoop_spec mem Dim (Nat.le_refl Dim), List.nil_append, Fin.is_lt, if_true]

/-- C10: for every object `mem` of a dimension `Dim` that the `int` loop counter can hold,
`KernelData(mem)` is constructed (the count-down loop terminates), its `data` equals
`mem.getBuffer()`, and `size[i] == mem.size[i]` and `stride[i] == mem.stride[i]` for every
`i < Dim`, whatever the arrays held before; the loop body runs for the indices
`Dim-1, ..., 0`, that is for every index below `Dim` exactly once and for none when `Dim` is
`0`; `mem` is unchanged; and the default-constructed descriptor has a null `data`. -/
theorem kernelData_is_exact_snapshot {Dim : Nat} (mem : Pointer Dim)
    (junkSize junkStride : Fin Dim → Nat) (hDim : Dim < 2 ^ (INT_BITS - 1)) :
    (∃ kv : DeviceMemory.KernelView Dim,
      DeviceMemory.KernelData.ctorMem mem junkSize junkStride = some kv ∧
      kv.mem = mem ∧
      kv.kernelData.data = mem.getBuffer ∧
      (∀ i : Fin Dim, kv.kernelData.size i = mem.size i ∧ kv.kernelData.stride i = mem.stride i) ∧
      kv.visited = (List.range Dim).reverse ∧
      kv.visited.Nodup ∧
      (∀ i : Nat, i ∈ kv.visited ↔ i < Dim) ∧
      (Dim = 0 → kv.visited = [])) ∧
    (DeviceMemory.KernelData.ctor junkSize junkStride).data = 0 := by
  refine ⟨⟨_, ctorMem_eq mem junkSize junkStride hDim, rfl, rfl, fun i => ⟨rfl, rfl⟩, rfl,
    ?_, ?_, ?_⟩, rfl⟩
  · exact List.nodup_reverse.mpr (List.nodup_range Dim)
  · intro i
    simp
  · intro h0
    subst h0
    rfl

/-- Witness for C10: the descriptor of a two-dimensional object of extents `(3, 5)` and strides
`(1, 3)` at address `7`, built over arrays that held `99`. -/
theorem kernelData_is_exact_snapshot_witness :
    2 < 2 ^ (INT_BITS - 1) ∧
    DeviceMemory.KernelData.ctorMem Sample.object2 (fun _ => 99) (fun _ => 99)
      = some { mem := Sample.object2,
               kernelData := { data := 7, size := Sample.object2.size,
                               stride := Sample.object2.stride },
               visited := [1, 0] } := by
  have h2 : 2 < 2 ^ (INT_BITS - 1) := by decide
  obtain ⟨⟨kv, hkv, hmem, hdata, harr, hvis, -⟩, -⟩ :=
    kernelData_is_exact_snapshot Sample.object2 (fun _ => 99) (fun _ => 99) h2
  refine ⟨h2, ?_⟩
  rw [hkv]
  obtain ⟨m0, ⟨d, s, st⟩, v⟩ := kv
  simp only at hmem hdata harr hvis
  have hs : s = Sample.object2.size := funext fun i => (harr i).1
  have hst : st = Sample.object2.stride := funext fun i => (harr i).2
  subst hmem hs hst
  rw [hdata, hvis]
  rfl

end Cuda
